import Mathlib

/-!
Shallow embedding of the semantic-convention group validation engine
(`crates/weaver_semconv/src/group.rs`): the group record model and
`GroupSpec::validate`, together with proofs of the specified behaviour.
-/

set_option linter.unusedVariables false

/-- The different types of groups (specification). From `GroupType` in
`group.rs`. -/
inductive GroupType where
  | AttributeGroup
  | Span
  | Event
  | Metric
  | MetricGroup
  | Resource
  | Scope
deriving DecidableEq, Repr

/-- The span kind. From `SpanKindSpec` in `group.rs`. -/
inductive SpanKindSpec where
  | Internal
  | Client
  | Server
  | Producer
  | Consumer
deriving DecidableEq, Repr

/-- The type of the metric. From `InstrumentSpec` in `group.rs`. -/
inductive InstrumentSpec where
  | UpDownCounter
  | Counter
  | Gauge
  | Histogram
deriving DecidableEq, Repr

/-- Modelled from the spec: the stability enum (`crate::stability::Stability`
is not part of the shown sources); "optional enum including a Deprecated
variant". -/
inductive Stability where
  | Deprecated
  | Experimental
  | Stable
deriving DecidableEq, Repr

/-- Modelled from the spec: primitive or array-of-primitive attribute types
(`PrimitiveOrArrayTypeSpec` is not part of the shown sources); "includes
String and StringArray variants among others". -/
inductive PrimitiveOrArrayTypeSpec where
  | Boolean
  | Int
  | Double
  | String
  | Booleans
  | Ints
  | Doubles
  | Strings
deriving DecidableEq, Repr

/-- Modelled from the spec: the declared type of an inline attribute
(`AttributeType` is not part of the shown sources); "primitive or
array-of-primitive". -/
inductive AttributeType where
  | PrimitiveOrArray (primitive : PrimitiveOrArrayTypeSpec)
deriving DecidableEq, Repr

/-- Modelled from the spec: example values attached to an attribute
(`Examples` is not part of the shown sources); "variant-typed: single value
or sequence". Only presence or absence matters to the validation engine. -/
inductive Examples where
  | String (value : String)
  | Strings (values : List String)
  | Int (value : Int)
  | Ints (values : List Int)
  | Bool (value : Bool)
  | Bools (values : List Bool)
deriving DecidableEq, Repr

/-- Modelled from the spec: non-validated requirement-level metadata carried
by an inline attribute (`RequirementLevel` is not part of the shown
sources). -/
inductive RequirementLevel where
  | Required
  | Recommended
  | OptIn
deriving DecidableEq, Repr

/-- Modelled from the spec: the attribute discriminated union
(`AttributeSpec` is not part of the shown sources). `Id` is an inline
definition with `id`, `type`, `brief`, `examples`, `stability`,
`deprecated`, `tag`, `requirement_level`, `sampling_relevant` and `note`;
`Ref` is a reference to an attribute defined elsewhere, carrying no brief
or type locally. -/
inductive AttributeSpec where
  | Id (id : String) (type : AttributeType) (brief : Option String)
      (examples : Option Examples) (stability : Option Stability)
      (deprecated : Option String) (tag : Option String)
      (requirement_level : RequirementLevel) (sampling_relevant : Option Bool)
      (note : String)
  | Ref (ref : String)
deriving DecidableEq, Repr

/-- Modelled from the spec: `AttributeSpec::id()`, the id of an inline
attribute or the referenced id of a reference attribute. -/
def AttributeSpec.id : AttributeSpec → String
  | AttributeSpec.Id i _ _ _ _ _ _ _ _ _ => i
  | AttributeSpec.Ref r => r

/-- Allow to define additional requirements on the semantic convention.
From `ConstraintSpec` in `group.rs`: carried by the record, not evaluated
by the engine. -/
structure ConstraintSpec where
  any_of : List String
  include_id : Option String
deriving DecidableEq, Repr

/-- Group Spec contains the list of semantic conventions for attributes,
metrics, events, spans, etc. From `GroupSpec` in `group.rs` (the Rust
fields `extends` and `prefix` are named `extends_id` and `prefix_` here
because both words are reserved in Lean). -/
structure GroupSpec where
  id : String
  type : GroupType
  brief : String
  note : String
  prefix_ : String
  extends_id : Option String
  stability : Option Stability
  deprecated : Option String
  attributes : List AttributeSpec
  constraints : List ConstraintSpec
  span_kind : Option SpanKindSpec
  events : List String
  metric_name : Option String
  instrument : Option InstrumentSpec
  unit : Option String
  name : Option String
deriving DecidableEq, Repr

/-- Modelled from the spec: the typed validation errors
(the enumerable, non-compound items of `crate::Error`, which is not part
of the shown sources): an error kind tag (InvalidGroup | InvalidMetric |
InvalidAttribute), the echoed provenance, the group id, (for attribute
errors) the attribute id, and a human-readable message. -/
inductive ValidationError where
  | InvalidGroup (path_or_url : String) (group_id : String) (error : String)
  | InvalidMetric (path_or_url : String) (group_id : String) (error : String)
  | InvalidAttribute (path_or_url : String) (group_id : String)
      (attribute_id : String) (error : String)
deriving DecidableEq, Repr

/-- Modelled from the spec: the error type returned by `validate`
(`crate::Error`, not part of the shown sources): one of the three
validation error kinds surfaced directly, or a `CompoundError` aggregate
wrapping ≥ 1 of them. -/
inductive Error where
  | InvalidGroup (path_or_url : String) (group_id : String) (error : String)
  | InvalidMetric (path_or_url : String) (group_id : String) (error : String)
  | InvalidAttribute (path_or_url : String) (group_id : String)
      (attribute_id : String) (error : String)
  | CompoundError (errors : List ValidationError)
deriving DecidableEq, Repr

/-- The injection of a single validation error into the returned error
type (a single error is surfaced directly, not wrapped). -/
def ValidationError.toError : ValidationError → Error
  | ValidationError.InvalidGroup p g e => Error.InvalidGroup p g e
  | ValidationError.InvalidMetric p g e => Error.InvalidMetric p g e
  | ValidationError.InvalidAttribute p g a e => Error.InvalidAttribute p g a e

/-- The enumerable list of validation errors carried by a returned error
value: a compound error enumerates its wrapped list, a single error
enumerates itself. -/
def Error.errorList : Error → List ValidationError
  | Error.InvalidGroup p g e => [ValidationError.InvalidGroup p g e]
  | Error.InvalidMetric p g e => [ValidationError.InvalidMetric p g e]
  | Error.InvalidAttribute p g a e => [ValidationError.InvalidAttribute p g a e]
  | Error.CompoundError es => es

/-- Modelled from the spec: `weaver_common::error::handle_errors` (not part
of the shown sources). An empty list is success; a single error is
surfaced directly; two or more errors are wrapped into a `CompoundError`
preserving order. Pinned down by `test_validate_group` and
`test_validate_attribute` in `group.rs`. -/
def handle_errors : List ValidationError → Except Error Unit
  | [] => Except.ok ()
  | [e] => Except.error e.toError
  | errors => Except.error (Error.CompoundError errors)

/-- The per-attribute part of the body of `GroupSpec::validate` in
`group.rs` (the body of the `for attribute in &self.attributes` loop):
the "no brief and not deprecated" check for inline attributes, then the
string / string-array missing-examples checks, skipped entirely
(`continue`) when `examples` is present. Reference attributes produce no
errors. -/
def attributeValidationErrors (group_id : String) (path_or_url : String)
    (attr : AttributeSpec) : List ValidationError :=
  let errors : List ValidationError :=
    match attr with
    | AttributeSpec.Id _ _ brief _ _ deprecated _ _ _ _ =>
      if brief.isNone ∧ deprecated.isNone then
        [ValidationError.InvalidAttribute path_or_url group_id attr.id
          "This attribute is not deprecated and does not contain a brief field."]
      else []
    | AttributeSpec.Ref _ => []
  match attr with
  | AttributeSpec.Id _ type _ examples _ _ _ _ _ _ =>
    if examples.isSome then errors
    else
      let errors :=
        if type = AttributeType.PrimitiveOrArray PrimitiveOrArrayTypeSpec.String then
          errors ++ [ValidationError.InvalidAttribute path_or_url group_id attr.id
            "This attribute is a string but it does not contain any examples."]
        else errors
      if type = AttributeType.PrimitiveOrArray PrimitiveOrArrayTypeSpec.Strings then
        errors ++ [ValidationError.InvalidAttribute path_or_url group_id attr.id
          "This attribute is a string array but it does not contain any examples."]
      else errors
  | AttributeSpec.Ref _ => errors

/-- The ordered list of validation errors collected by
`GroupSpec::validate` in `group.rs`: the span_kind / events checks when
the type is not span, the event empty-prefix/no-name check, the three
metric field checks, then the per-attribute checks in declaration
order. -/
def GroupSpec.validationErrors (self : GroupSpec) (path_or_url : String) :
    List ValidationError :=
  let errors : List ValidationError := []
  -- Fields span_kind and events are only valid if type is span (the default).
  let errors :=
    if self.type ≠ GroupType.Span then
      let errors :=
        if self.span_kind.isSome then
          errors ++ [ValidationError.InvalidGroup path_or_url self.id
            "This group contains a span_kind field but the type is not set to span."]
        else errors
      if ¬ self.events.isEmpty then
        errors ++ [ValidationError.InvalidGroup path_or_url self.id
          "This group contains an events field but the type is not set to span."]
      else errors
    else errors
  -- Field name is required if prefix is empty and if type is event.
  let errors :=
    if self.type = GroupType.Event ∧ self.prefix_.isEmpty ∧ self.name.isNone then
      errors ++ [ValidationError.InvalidGroup path_or_url self.id
        "This group contains an event type but the prefix is empty and the name is not set."]
    else errors
  -- Fields metric_name, instrument and unit are required if type is metric.
  let errors :=
    if self.type = GroupType.Metric then
      let errors :=
        if self.metric_name.isNone then
          errors ++ [ValidationError.InvalidMetric path_or_url self.id
            "This group contains a metric type but the metric_name is not set."]
        else errors
      let errors :=
        if self.instrument.isNone then
          errors ++ [ValidationError.InvalidMetric path_or_url self.id
            "This group contains a metric type but the instrument is not set."]
        else errors
      if self.unit.isNone then
        errors ++ [ValidationError.InvalidMetric path_or_url self.id
          "This group contains a metric type but the unit is not set."]
      else errors
    else errors
  -- Validates the attributes.
  errors ++ self.attributes.flatMap (attributeValidationErrors self.id path_or_url)

/-- Validation logic for the group: `GroupSpec::validate` in `group.rs`.
Collects every violation, then reports via `handle_errors`. -/
def GroupSpec.validate (self : GroupSpec) (path_or_url : String) :
    Except Error Unit :=
  handle_errors (self.validationErrors path_or_url)

/-! ### Named forms of the individual errors produced by `validate` -/

/-- The rule-1a error: span_kind present on a non-span group. -/
def spanKindError (path_or_url group_id : String) : ValidationError :=
  ValidationError.InvalidGroup path_or_url group_id
    "This group contains a span_kind field but the type is not set to span."

/-- The rule-1b error: events present on a non-span group. -/
def eventsError (path_or_url group_id : String) : ValidationError :=
  ValidationError.InvalidGroup path_or_url group_id
    "This group contains an events field but the type is not set to span."

/-- The rule-1c error: event group with empty prefix and no name. -/
def eventPrefixError (path_or_url group_id : String) : ValidationError :=
  ValidationError.InvalidGroup path_or_url group_id
    "This group contains an event type but the prefix is empty and the name is not set."

/-- The rule-1d error: metric group without metric_name. -/
def metricNameError (path_or_url group_id : String) : ValidationError :=
  ValidationError.InvalidMetric path_or_url group_id
    "This group contains a metric type but the metric_name is not set."

/-- The rule-1d error: metric group without instrument. -/
def instrumentError (path_or_url group_id : String) : ValidationError :=
  ValidationError.InvalidMetric path_or_url group_id
    "This group contains a metric type but the instrument is not set."

/-- The rule-1d error: metric group without unit. -/
def unitError (path_or_url group_id : String) : ValidationError :=
  ValidationError.InvalidMetric path_or_url group_id
    "This group contains a metric type but the unit is not set."

/-- The rule-2a error: inline attribute with no brief and not deprecated. -/
def noBriefError (path_or_url group_id attribute_id : String) : ValidationError :=
  ValidationError.InvalidAttribute path_or_url group_id attribute_id
    "This attribute is not deprecated and does not contain a brief field."

/-- The rule-2b error: inline string attribute without examples. -/
def stringExamplesError (path_or_url group_id attribute_id : String) : ValidationError :=
  ValidationError.InvalidAttribute path_or_url group_id attribute_id
    "This attribute is a string but it does not contain any examples."

/-- The rule-2b error: inline string-array attribute without examples. -/
def stringArrayExamplesError (path_or_url group_id attribute_id : String) : ValidationError :=
  ValidationError.InvalidAttribute path_or_url group_id attribute_id
    "This attribute is a string array but it does not contain any examples."

/-! ### Spec-side rule list (for the refinement claims) -/

/-- The names of the individual validation rules of §4.2 of the spec:
1a, 1b, 1c, the three 1d variants, and the per-attribute rules 2a and 2b
tagged with the attribute id they fire on. -/
inductive RuleViolation where
  | spanKindOnNonSpan
  | eventsOnNonSpan
  | eventEmptyPrefixNoName
  | missingMetricName
  | missingInstrument
  | missingUnit
  | attributeNoBrief (attribute_id : String)
  | stringAttributeNoExamples (attribute_id : String)
  | stringArrayAttributeNoExamples (attribute_id : String)
deriving DecidableEq, Repr

/-- Modelled from the spec: the rules 2a–2b violated by one attribute, in
sub-rule order (2a before 2b). Only inline-definition attributes are
checked; rule 2a fires when brief and deprecated are both absent; rule 2b
fires, when examples is absent, for declared type exactly String or
exactly Strings. -/
def attributeRuleViolations (attr : AttributeSpec) : List RuleViolation :=
  match attr with
  | AttributeSpec.Id i ty brief ex _ depr _ _ _ _ =>
    (if brief = none ∧ depr = none then [RuleViolation.attributeNoBrief i] else []) ++
    (if ex = none ∧ ty = AttributeType.PrimitiveOrArray PrimitiveOrArrayTypeSpec.String then
      [RuleViolation.stringAttributeNoExamples i] else []) ++
    (if ex = none ∧ ty = AttributeType.PrimitiveOrArray PrimitiveOrArrayTypeSpec.Strings then
      [RuleViolation.stringArrayAttributeNoExamples i] else [])
  | AttributeSpec.Ref _ => []

/-- Modelled from the spec: the ordered list of rule violations of one
group record, in the evaluation order fixed by §4.2: 1a, 1b, 1c, 1d
(metric_name, instrument, unit), then the attribute rules in attribute
declaration order. -/
def GroupSpec.ruleViolations (g : GroupSpec) : List RuleViolation :=
  (if g.type ≠ GroupType.Span ∧ g.span_kind ≠ none then
    [RuleViolation.spanKindOnNonSpan] else []) ++
  (if g.type ≠ GroupType.Span ∧ g.events ≠ [] then
    [RuleViolation.eventsOnNonSpan] else []) ++
  (if g.type = GroupType.Event ∧ g.prefix_ = "" ∧ g.name = none then
    [RuleViolation.eventEmptyPrefixNoName] else []) ++
  (if g.type = GroupType.Metric ∧ g.metric_name = none then
    [RuleViolation.missingMetricName] else []) ++
  (if g.type = GroupType.Metric ∧ g.instrument = none then
    [RuleViolation.missingInstrument] else []) ++
  (if g.type = GroupType.Metric ∧ g.unit = none then
    [RuleViolation.missingUnit] else []) ++
  g.attributes.flatMap attributeRuleViolations

/-- The error the engine reports for each rule violation. -/
def RuleViolation.toValidationError (path_or_url group_id : String) :
    RuleViolation → ValidationError
  | RuleViolation.spanKindOnNonSpan => spanKindError path_or_url group_id
  | RuleViolation.eventsOnNonSpan => eventsError path_or_url group_id
  | RuleViolation.eventEmptyPrefixNoName => eventPrefixError path_or_url group_id
  | RuleViolation.missingMetricName => metricNameError path_or_url group_id
  | RuleViolation.missingInstrument => instrumentError path_or_url group_id
  | RuleViolation.missingUnit => unitError path_or_url group_id
  | RuleViolation.attributeNoBrief i => noBriefError path_or_url group_id i
  | RuleViolation.stringAttributeNoExamples i =>
      stringExamplesError path_or_url group_id i
  | RuleViolation.stringArrayAttributeNoExamples i =>
      stringArrayExamplesError path_or_url group_id i

/-- Is the attribute a reference-variant attribute? -/
def AttributeSpec.isRef : AttributeSpec → Bool
  | AttributeSpec.Ref _ => true
  | AttributeSpec.Id _ _ _ _ _ _ _ _ _ _ => false

/-- Is the error an `InvalidMetric` error? -/
def ValidationError.isInvalidMetric : ValidationError → Bool
  | ValidationError.InvalidMetric _ _ _ => true
  | _ => false

/-! ### Concrete records used to instantiate the theorems -/

/-- An event group with empty prefix and no name and nothing else wrong:
exactly one violation (rule 1c). -/
def gEventBad : GroupSpec :=
  { id := "grp", type := GroupType.Event, brief := "", note := "",
    prefix_ := "", extends_id := none, stability := none, deprecated := none,
    attributes := [], constraints := [], span_kind := none, events := [],
    metric_name := none, instrument := none, unit := none, name := none }

/-- A metric group with stray span fields but all metric fields present:
exactly the two violations 1a and 1b. -/
def gMetricStray : GroupSpec :=
  { id := "grp", type := GroupType.Metric, brief := "", note := "",
    prefix_ := "x", extends_id := none, stability := none, deprecated := none,
    attributes := [], constraints := [], span_kind := some SpanKindSpec.Client,
    events := ["e"], metric_name := some "m",
    instrument := some InstrumentSpec.Counter, unit := some "1", name := none }

/-- A span group with one inline boolean attribute lacking brief and
deprecated: exactly one violation (rule 2a). -/
def gAttrNoBrief : GroupSpec :=
  { id := "grp", type := GroupType.Span, brief := "", note := "",
    prefix_ := "x", extends_id := none, stability := none, deprecated := none,
    attributes := [AttributeSpec.Id "a"
      (AttributeType.PrimitiveOrArray PrimitiveOrArrayTypeSpec.Boolean)
      none none none none none RequirementLevel.Recommended none ""],
    constraints := [], span_kind := none, events := [],
    metric_name := none, instrument := none, unit := none, name := none }

/-- A span group with one inline string attribute that has a brief but no
examples: exactly one violation (rule 2b, string variant). -/
def gAttrNoExamples : GroupSpec :=
  { id := "grp", type := GroupType.Span, brief := "", note := "",
    prefix_ := "x", extends_id := none, stability := none, deprecated := none,
    attributes := [AttributeSpec.Id "a"
      (AttributeType.PrimitiveOrArray PrimitiveOrArrayTypeSpec.String)
      (some "b") none none none none RequirementLevel.Recommended none ""],
    constraints := [], span_kind := none, events := [],
    metric_name := none, instrument := none, unit := none, name := none }

/-- A span group whose only attribute is a reference attribute: no
violations. -/
def gRefOnly : GroupSpec :=
  { id := "grp", type := GroupType.Span, brief := "", note := "",
    prefix_ := "x", extends_id := none, stability := none, deprecated := none,
    attributes := [AttributeSpec.Ref "r"], constraints := [],
    span_kind := none, events := [], metric_name := none, instrument := none,
    unit := none, name := none }

/-- `gEventBad` with different values in every field the engine does not
read (brief, note, extends, stability, deprecated, constraints). -/
def gEventBadRelabelled : GroupSpec :=
  { id := "grp", type := GroupType.Event, brief := "other", note := "other",
    prefix_ := "", extends_id := some "base", stability := some Stability.Stable,
    deprecated := some "why", attributes := [],
    constraints := [{ any_of := ["a"], include_id := some "inc" }],
    span_kind := none, events := [], metric_name := none, instrument := none,
    unit := none, name := none }

/-! ### Normal forms of the collected error lists -/

/-- A reference attribute contributes no errors. -/
theorem attributeValidationErrors_Ref (group_id path_or_url r : String) :
    attributeValidationErrors group_id path_or_url (AttributeSpec.Ref r) = [] := rfl

/-- Normal form of the error contribution of one inline attribute. -/
theorem attributeValidationErrors_Id (group_id path_or_url i : String)
    (ty : AttributeType) (brief : Option String) (ex : Option Examples)
    (st : Option Stability) (depr : Option String) (tag : Option String)
    (rl : RequirementLevel) (sr : Option Bool) (note : String) :
    attributeValidationErrors group_id path_or_url
      (AttributeSpec.Id i ty brief ex st depr tag rl sr note) =
    (if brief = none ∧ depr = none then [noBriefError path_or_url group_id i] else []) ++
    (if ex = none ∧ ty = AttributeType.PrimitiveOrArray PrimitiveOrArrayTypeSpec.String then
      [stringExamplesError path_or_url group_id i] else []) ++
    (if ex = none ∧ ty = AttributeType.PrimitiveOrArray PrimitiveOrArrayTypeSpec.Strings then
      [stringArrayExamplesError path_or_url group_id i] else []) := by
  cases brief <;> cases depr <;> cases ex <;>
    by_cases h1 : ty = AttributeType.PrimitiveOrArray PrimitiveOrArrayTypeSpec.String <;>
    by_cases h2 : ty = AttributeType.PrimitiveOrArray PrimitiveOrArrayTypeSpec.Strings <;>
    simp_all [attributeValidationErrors, AttributeSpec.id, noBriefError,
      stringExamplesError, stringArrayExamplesError]

/-- Normal form of the full collected error list: a flat concatenation of
guarded singletons in rule order 1a, 1b, 1c, 1d (metric_name, instrument,
unit), followed by the per-attribute contributions in declaration order. -/
theorem validationErrors_eq (g : GroupSpec) (p : String) :
    g.validationErrors p =
    (if g.type ≠ GroupType.Span ∧ g.span_kind ≠ none then [spanKindError p g.id] else []) ++
    (if g.type ≠ GroupType.Span ∧ g.events ≠ [] then [eventsError p g.id] else []) ++
    (if g.type = GroupType.Event ∧ g.prefix_ = "" ∧ g.name = none then
      [eventPrefixError p g.id] else []) ++
    (if g.type = GroupType.Metric ∧ g.metric_name = none then [metricNameError p g.id] else []) ++
    (if g.type = GroupType.Metric ∧ g.instrument = none then [instrumentError p g.id] else []) ++
    (if g.type = GroupType.Metric ∧ g.unit = none then [unitError p g.id] else []) ++
    g.attributes.flatMap (attributeValidationErrors g.id p) := by
  cases h : g.type <;>
    simp [GroupSpec.validationErrors, h, Option.isSome_iff_ne_none, List.isEmpty_iff,
      String.isEmpty_iff, Option.isNone_iff_eq_none, spanKindError, eventsError,
      eventPrefixError, metricNameError, instrumentError, unitError] <;>
    (try (split_ifs <;> simp_all))

/-- The error contribution of one attribute is exactly its rule violations
mapped to their errors. -/
theorem map_attributeRuleViolations (group_id path_or_url : String)
    (a : AttributeSpec) :
    (attributeRuleViolations a).map
      (RuleViolation.toValidationError path_or_url group_id) =
    attributeValidationErrors group_id path_or_url a := by
  cases a with
  | Ref r => rfl
  | Id i ty brief ex st depr tag rl sr note =>
    rw [attributeValidationErrors_Id]
    simp only [attributeRuleViolations, List.map_append,
      apply_ite (List.map (RuleViolation.toValidationError path_or_url group_id)),
      List.map_cons, List.map_nil, RuleViolation.toValidationError]

/-- The collected error list is exactly the spec-side rule-violation list
mapped to the reported errors, in the same order. -/
theorem validationErrors_eq_map (g : GroupSpec) (p : String) :
    g.validationErrors p =
    (g.ruleViolations).map (RuleViolation.toValidationError p g.id) := by
  rw [validationErrors_eq]
  unfold GroupSpec.ruleViolations
  simp only [List.map_append,
    apply_ite (List.map (RuleViolation.toValidationError p g.id)),
    List.map_cons, List.map_nil, RuleViolation.toValidationError,
    List.map_flatMap, map_attributeRuleViolations]

/-! ### Behaviour of `handle_errors` -/

/-- The enumerated list of a single surfaced error is that error. -/
theorem errorList_toError (e : ValidationError) : e.toError.errorList = [e] := by
  cases e <;> rfl

/-- `handle_errors` succeeds exactly on the empty list. -/
theorem handle_errors_ok_iff (es : List ValidationError) :
    handle_errors es = Except.ok () ↔ es = [] := by
  match es with
  | [] => simp [handle_errors]
  | [e] =>
    show Except.error e.toError = Except.ok () ↔ _
    simp
  | a :: b :: t =>
    show Except.error (Error.CompoundError (a :: b :: t)) = Except.ok () ↔ _
    simp

/-- A failing `handle_errors` enumerates exactly the collected list. -/
theorem handle_errors_error (es : List ValidationError) (e : Error)
    (h : handle_errors es = Except.error e) : e.errorList = es := by
  match es with
  | [] => simp [handle_errors] at h
  | [x] =>
    rw [show handle_errors [x] = Except.error x.toError from rfl] at h
    simp only [Except.error.injEq] at h
    rw [← h, errorList_toError]
  | a :: b :: t =>
    rw [show handle_errors (a :: b :: t) =
        Except.error (Error.CompoundError (a :: b :: t)) from rfl] at h
    simp only [Except.error.injEq] at h
    rw [← h]
    rfl

/-! ### Small helper lemmas -/

/-- Membership in a guarded singleton list. -/
theorem mem_guard {α : Type} (c : Prop) [Decidable c] (e x : α) :
    x ∈ (if c then [e] else []) ↔ c ∧ x = e := by
  split <;> simp_all

/-- Every error contributed by an attribute is an `InvalidAttribute` error
for the given provenance and group id. -/
theorem attr_errors_shape (group_id path_or_url : String) (a : AttributeSpec) :
    ∀ x ∈ attributeValidationErrors group_id path_or_url a,
      ∃ i e, x = ValidationError.InvalidAttribute path_or_url group_id i e := by
  cases a with
  | Ref r => simp [attributeValidationErrors_Ref]
  | Id i ty brief ex st depr tag rl sr note =>
    rw [attributeValidationErrors_Id]
    intro x hx
    simp only [List.mem_append, mem_guard] at hx
    rcases hx with (⟨_, rfl⟩ | ⟨_, rfl⟩) | ⟨_, rfl⟩ <;> exact ⟨i, _, rfl⟩

/-! ### The claims -/

/-- C1: for every group record and provenance, `validate` returns Ok(())
iff no rule (1a, 1b, 1c, 1d-metric_name, 1d-instrument, 1d-unit, 2a, 2b)
is violated; otherwise it returns an Err whose enumerable error list is
non-empty and contains exactly one error per violation, with no violation
dropped. -/
theorem validate_ok_iff_no_rule_violated (g : GroupSpec) (p : String) :
    (g.validate p = Except.ok () ↔ g.ruleViolations = []) ∧
    (∀ e : Error, g.validate p = Except.error e →
      e.errorList ≠ [] ∧
      e.errorList =
        (g.ruleViolations).map (RuleViolation.toValidationError p g.id)) := by
  constructor
  · rw [GroupSpec.validate, handle_errors_ok_iff, validationErrors_eq_map]
    exact List.map_eq_nil_iff
  · intro e he
    have h1 : e.errorList = g.validationErrors p := handle_errors_error _ _ he
    refine ⟨?_, by rw [h1, validationErrors_eq_map]⟩
    intro hnil
    rw [hnil] at h1
    rw [GroupSpec.validate, ← h1] at he
    simp [handle_errors] at he

/-- Witness for C1 at the concrete record `gEventBad`, which violates
exactly rule 1c. -/
theorem validate_ok_iff_no_rule_violated_witness :
    (Error.InvalidGroup "p" "grp"
      "This group contains an event type but the prefix is empty and the name is not set.").errorList ≠ [] ∧
    (Error.InvalidGroup "p" "grp"
      "This group contains an event type but the prefix is empty and the name is not set.").errorList =
      (gEventBad.ruleViolations).map
        (RuleViolation.toValidationError "p" gEventBad.id) :=
  (validate_ok_iff_no_rule_violated gEventBad "p").2
    (Error.InvalidGroup "p" "grp"
      "This group contains an event type but the prefix is empty and the name is not set.")
    rfl

/-- C2: the collected errors appear in the fixed evaluation order: 1a,
then 1b, then 1c, then the metric errors in the order metric_name,
instrument, unit, then per-attribute errors in attribute declaration
order, with the no-brief error (2a) before the missing-examples error
(2b) within one attribute. -/
theorem validationErrors_in_evaluation_order (g : GroupSpec) (p : String) :
    g.validationErrors p =
      (g.ruleViolations).map (RuleViolation.toValidationError p g.id) :=
  validationErrors_eq_map g p

/-- C9: when exactly one violation is detected the Err value is that
single error directly (never a CompoundError); with two or more
violations the Err value is a CompoundError wrapping all of them in
evaluation order. -/
theorem single_error_direct_many_compound (g : GroupSpec) (p : String) :
    (∀ e : ValidationError, g.validationErrors p = [e] →
      g.validate p = Except.error e.toError ∧
      ∀ es, e.toError ≠ Error.CompoundError es) ∧
    (2 ≤ (g.validationErrors p).length →
      g.validate p = Except.error (Error.CompoundError (g.validationErrors p))) := by
  constructor
  · intro e he
    refine ⟨by rw [GroupSpec.validate, he]; rfl, ?_⟩
    intro es
    cases e <;> simp [ValidationError.toError]
  · intro hlen
    cases hl : g.validationErrors p with
    | nil => rw [hl] at hlen; simp at hlen
    | cons a t =>
      cases t with
      | nil => rw [hl] at hlen; simp at hlen
      | cons b t2 => rw [GroupSpec.validate, hl]; rfl

/-- Witness for C9 at `gEventBad` (one violation, surfaced directly). -/
theorem single_error_direct_many_compound_witness :
    GroupSpec.validate gEventBad "p" =
      Except.error ((eventPrefixError "p" "grp").toError) ∧
    ∀ es, (eventPrefixError "p" "grp").toError ≠ Error.CompoundError es :=
  (single_error_direct_many_compound gEventBad "p").1
    (eventPrefixError "p" "grp") rfl

/-- C10: two records agreeing on id, kind, prefix, span_kind, events,
metric_name, instrument, unit, name and attributes validate identically:
brief, note, extends, stability, deprecated and constraints never
influence the result; in particular a present deprecated with any
stability (also one different from Deprecated) produces no error. -/
theorem validate_ignores_unvalidated_fields :
    (∀ (g1 g2 : GroupSpec) (p : String),
      g1.id = g2.id → g1.type = g2.type → g1.prefix_ = g2.prefix_ →
      g1.span_kind = g2.span_kind → g1.events = g2.events →
      g1.metric_name = g2.metric_name → g1.instrument = g2.instrument →
      g1.unit = g2.unit → g1.name = g2.name → g1.attributes = g2.attributes →
      g1.validate p = g2.validate p) ∧
    (∀ (g : GroupSpec) (p reason : String) (st : Option Stability),
      GroupSpec.validate { g with stability := st, deprecated := some reason } p =
        g.validate p) := by
  constructor
  · intro g1 g2 p h1 h2 h3 h4 h5 h6 h7 h8 h9 h10
    cases g1
    cases g2
    simp only at h1 h2 h3 h4 h5 h6 h7 h8 h9 h10
    subst h1; subst h2; subst h3; subst h4; subst h5
    subst h6; subst h7; subst h8; subst h9; subst h10
    rfl
  · intro g p reason st
    cases g
    rfl

/-- Witness for C10: `gEventBad` and its relabelling with different
brief, note, extends, stability, deprecated and constraints validate to
the same result. -/
theorem validate_ignores_unvalidated_fields_witness :
    GroupSpec.validate gEventBad "p" =
      GroupSpec.validate gEventBadRelabelled "p" :=
  validate_ignores_unvalidated_fields.1 gEventBad gEventBadRelabelled "p"
    rfl rfl rfl rfl rfl rfl rfl rfl rfl rfl


/-- A value that is not an `InvalidAttribute` error for this provenance and
group id never occurs in the attribute part of the error list. -/
theorem not_mem_attr_part (gid p : String) (l : List AttributeSpec)
    (x : ValidationError)
    (hx : ∀ i e, x ≠ ValidationError.InvalidAttribute p gid i e) :
    x ∉ l.flatMap (attributeValidationErrors gid p) := by
  intro hmem
  rcases List.mem_flatMap.mp hmem with ⟨a, ha, hm⟩
  obtain ⟨i, e, rfl⟩ := attr_errors_shape gid p a x hm
  exact hx i e rfl

/-- Membership in the collected error list, by cases over the rules. -/
theorem mem_validationErrors_iff (g : GroupSpec) (p : String)
    (x : ValidationError) :
    x ∈ g.validationErrors p ↔
      ((g.type ≠ GroupType.Span ∧ g.span_kind ≠ none) ∧ x = spanKindError p g.id) ∨
      ((g.type ≠ GroupType.Span ∧ g.events ≠ []) ∧ x = eventsError p g.id) ∨
      ((g.type = GroupType.Event ∧ g.prefix_ = "" ∧ g.name = none) ∧
        x = eventPrefixError p g.id) ∨
      ((g.type = GroupType.Metric ∧ g.metric_name = none) ∧
        x = metricNameError p g.id) ∨
      ((g.type = GroupType.Metric ∧ g.instrument = none) ∧
        x = instrumentError p g.id) ∨
      ((g.type = GroupType.Metric ∧ g.unit = none) ∧ x = unitError p g.id) ∨
      (∃ a ∈ g.attributes, x ∈ attributeValidationErrors g.id p a) := by
  rw [validationErrors_eq]
  simp only [List.mem_append, mem_guard, List.mem_flatMap, or_assoc]

/-- C3: on a group whose kind is not Span, a present span_kind yields the
span_kind InvalidGroup error and a non-empty events list independently
yields the events InvalidGroup error (so both can co-occur); on a Span
group neither error is ever produced. -/
theorem span_fields_errors_on_non_span (g : GroupSpec) (p : String) :
    (g.type ≠ GroupType.Span →
      (g.span_kind ≠ none → spanKindError p g.id ∈ g.validationErrors p) ∧
      (g.events ≠ [] → eventsError p g.id ∈ g.validationErrors p)) ∧
    (g.type = GroupType.Span →
      spanKindError p g.id ∉ g.validationErrors p ∧
      eventsError p g.id ∉ g.validationErrors p) := by
  constructor
  · intro ht
    constructor
    · intro hsk
      exact (mem_validationErrors_iff g p _).mpr (Or.inl ⟨⟨ht, hsk⟩, rfl⟩)
    · intro hev
      exact (mem_validationErrors_iff g p _).mpr
        (Or.inr (Or.inl ⟨⟨ht, hev⟩, rfl⟩))
  · intro ht
    constructor <;> intro hx <;>
      rcases (mem_validationErrors_iff g p _).mp hx with
        ⟨⟨hc, _⟩, _⟩ | ⟨⟨hc, _⟩, _⟩ | ⟨⟨hc, _⟩, _⟩ | ⟨⟨hc, _⟩, _⟩ |
        ⟨⟨hc, _⟩, _⟩ | ⟨⟨hc, _⟩, _⟩ | ⟨a, ha, hm⟩ <;>
      first
        | exact hc ht
        | (rw [ht] at hc; simp at hc)
        | (obtain ⟨i, e, hsh⟩ := attr_errors_shape g.id p a _ hm
           simp [spanKindError, eventsError] at hsh)

/-- Witness for C3 at `gMetricStray` (kind Metric, span_kind set, events
non-empty): both errors co-occur in one call. -/
theorem span_fields_errors_on_non_span_witness :
    spanKindError "p" "grp" ∈ gMetricStray.validationErrors "p" ∧
    eventsError "p" "grp" ∈ gMetricStray.validationErrors "p" := by
  have h := (span_fields_errors_on_non_span gMetricStray "p").1 (by decide)
  exact ⟨h.1 (by decide), h.2 (by decide)⟩

/-- C4: the "event type with empty prefix and no name" error is present
iff kind is Event, the prefix is empty and the name is absent. -/
theorem event_prefix_error_iff (g : GroupSpec) (p : String) :
    eventPrefixError p g.id ∈ g.validationErrors p ↔
      g.type = GroupType.Event ∧ g.prefix_ = "" ∧ g.name = none := by
  constructor
  · intro hx
    rcases (mem_validationErrors_iff g p _).mp hx with
      ⟨_, heq⟩ | ⟨_, heq⟩ | ⟨hc, _⟩ | ⟨_, heq⟩ | ⟨_, heq⟩ | ⟨_, heq⟩ |
      ⟨a, ha, hm⟩
    · simp [eventPrefixError, spanKindError] at heq
    · simp [eventPrefixError, eventsError] at heq
    · exact hc
    · simp [eventPrefixError, metricNameError] at heq
    · simp [eventPrefixError, instrumentError] at heq
    · simp [eventPrefixError, unitError] at heq
    · obtain ⟨i, e, hsh⟩ := attr_errors_shape g.id p a _ hm
      simp [eventPrefixError] at hsh
  · intro hc
    exact (mem_validationErrors_iff g p _).mpr
      (Or.inr (Or.inr (Or.inl ⟨hc, rfl⟩)))

/-- Witness for C4 at `gEventBad`. -/
theorem event_prefix_error_iff_witness :
    eventPrefixError "p" "grp" ∈ gEventBad.validationErrors "p" :=
  (event_prefix_error_iff gEventBad "p").mpr ⟨rfl, rfl, rfl⟩

/-- C5: the InvalidMetric errors in the result are exactly one error per
missing metric field (metric_name, instrument, unit) when the kind is
Metric, and there are none when the kind is not Metric. -/
theorem invalid_metric_errors_characterization (g : GroupSpec) (p : String) :
    (g.validationErrors p).filter ValidationError.isInvalidMetric =
      (if g.type = GroupType.Metric ∧ g.metric_name = none then
        [metricNameError p g.id] else []) ++
      (if g.type = GroupType.Metric ∧ g.instrument = none then
        [instrumentError p g.id] else []) ++
      (if g.type = GroupType.Metric ∧ g.unit = none then
        [unitError p g.id] else []) := by
  rw [validationErrors_eq]
  simp only [List.filter_append]
  have hattr : (g.attributes.flatMap (attributeValidationErrors g.id p)).filter
      ValidationError.isInvalidMetric = [] := by
    rw [List.filter_eq_nil_iff]
    intro x hx
    rcases List.mem_flatMap.mp hx with ⟨a, ha, hm⟩
    obtain ⟨i, e, rfl⟩ := attr_errors_shape g.id p a x hm
    simp [ValidationError.isInvalidMetric]
  rw [hattr]
  have hfalse : ∀ (c : Prop) [Decidable c] (e : ValidationError),
      e.isInvalidMetric = false →
      (if c then [e] else []).filter ValidationError.isInvalidMetric = [] := by
    intro c _ e he
    split <;> simp [he]
  have htrue : ∀ (c : Prop) [Decidable c] (e : ValidationError),
      e.isInvalidMetric = true →
      (if c then [e] else []).filter ValidationError.isInvalidMetric =
        (if c then [e] else []) := by
    intro c _ e he
    split <;> simp [he]
  rw [hfalse _ (spanKindError p g.id) rfl,
    hfalse _ (eventsError p g.id) rfl,
    hfalse _ (eventPrefixError p g.id) rfl,
    htrue _ (metricNameError p g.id) rfl,
    htrue _ (instrumentError p g.id) rfl,
    htrue _ (unitError p g.id) rfl]
  simp

/-- C6: an inline attribute produces the "no brief and not deprecated"
InvalidAttribute error, tagged with its id, exactly when its brief and
deprecated fields are both absent; if either is set, that attribute
contributes no such error. -/
theorem no_brief_error_characterization (g : GroupSpec) (p i : String)
    (ty : AttributeType) (brief : Option String) (ex : Option Examples)
    (st : Option Stability) (depr : Option String) (tag : Option String)
    (rl : RequirementLevel) (sr : Option Bool) (note : String)
    (ha : AttributeSpec.Id i ty brief ex st depr tag rl sr note ∈ g.attributes) :
    (brief = none ∧ depr = none →
      noBriefError p g.id i ∈ g.validationErrors p) ∧
    (brief ≠ none ∨ depr ≠ none →
      noBriefError p g.id i ∉ attributeValidationErrors g.id p
        (AttributeSpec.Id i ty brief ex st depr tag rl sr note)) := by
  constructor
  · rintro ⟨h1, h2⟩
    refine (mem_validationErrors_iff g p _).mpr
      (Or.inr (Or.inr (Or.inr (Or.inr (Or.inr (Or.inr ⟨_, ha, ?_⟩))))))
    rw [attributeValidationErrors_Id]
    simp [mem_guard, h1, h2]
  · intro h hmem
    rw [attributeValidationErrors_Id] at hmem
    simp only [List.mem_append, mem_guard, or_assoc] at hmem
    rcases hmem with ⟨⟨hb, hd⟩, _⟩ | ⟨_, heq⟩ | ⟨_, heq⟩
    · rcases h with h | h
      · exact h hb
      · exact h hd
    · exact absurd heq (by simp [noBriefError, stringExamplesError])
    · exact absurd heq (by simp [noBriefError, stringArrayExamplesError])

/-- Witness for C6 at `gAttrNoBrief`. -/
theorem no_brief_error_characterization_witness :
    noBriefError "p" "grp" "a" ∈ gAttrNoBrief.validationErrors "p" :=
  (no_brief_error_characterization gAttrNoBrief "p" "a"
    (AttributeType.PrimitiveOrArray PrimitiveOrArrayTypeSpec.Boolean)
    none none none none none RequirementLevel.Recommended none ""
    (by decide)).1 ⟨rfl, rfl⟩

/-- C7: for an inline attribute without examples, declared type exactly
String yields the string examples error and declared type exactly Strings
yields the string-array examples error; any other declared type
contributes no examples error, and a present examples field suppresses
both regardless of type. -/
theorem examples_error_characterization (g : GroupSpec) (p i : String)
    (ty : AttributeType) (brief : Option String) (ex : Option Examples)
    (st : Option Stability) (depr : Option String) (tag : Option String)
    (rl : RequirementLevel) (sr : Option Bool) (note : String)
    (ha : AttributeSpec.Id i ty brief ex st depr tag rl sr note ∈ g.attributes) :
    (ex = none →
      (ty = AttributeType.PrimitiveOrArray PrimitiveOrArrayTypeSpec.String →
        stringExamplesError p g.id i ∈ g.validationErrors p) ∧
      (ty = AttributeType.PrimitiveOrArray PrimitiveOrArrayTypeSpec.Strings →
        stringArrayExamplesError p g.id i ∈ g.validationErrors p) ∧
      (ty ≠ AttributeType.PrimitiveOrArray PrimitiveOrArrayTypeSpec.String →
        ty ≠ AttributeType.PrimitiveOrArray PrimitiveOrArrayTypeSpec.Strings →
        ∀ x ∈ attributeValidationErrors g.id p
          (AttributeSpec.Id i ty brief ex st depr tag rl sr note),
          x ≠ stringExamplesError p g.id i ∧
          x ≠ stringArrayExamplesError p g.id i)) ∧
    (ex ≠ none →
      ∀ x ∈ attributeValidationErrors g.id p
        (AttributeSpec.Id i ty brief ex st depr tag rl sr note),
        x ≠ stringExamplesError p g.id i ∧
        x ≠ stringArrayExamplesError p g.id i) := by
  constructor
  · intro hex
    refine ⟨?_, ?_, ?_⟩
    · intro hty
      refine (mem_validationErrors_iff g p _).mpr
        (Or.inr (Or.inr (Or.inr (Or.inr (Or.inr (Or.inr ⟨_, ha, ?_⟩))))))
      rw [attributeValidationErrors_Id]
      simp [mem_guard, hex, hty]
    · intro hty
      refine (mem_validationErrors_iff g p _).mpr
        (Or.inr (Or.inr (Or.inr (Or.inr (Or.inr (Or.inr ⟨_, ha, ?_⟩))))))
      rw [attributeValidationErrors_Id]
      simp [mem_guard, hex, hty]
    · intro hty1 hty2 x hx
      rw [attributeValidationErrors_Id] at hx
      simp only [List.mem_append, mem_guard, or_assoc] at hx
      rcases hx with ⟨_, rfl⟩ | ⟨⟨_, hc⟩, _⟩ | ⟨⟨_, hc⟩, _⟩
      · constructor <;>
          simp [noBriefError, stringExamplesError, stringArrayExamplesError]
      · exact absurd hc hty1
      · exact absurd hc hty2
  · intro hex x hx
    rw [attributeValidationErrors_Id] at hx
    simp only [List.mem_append, mem_guard, or_assoc] at hx
    rcases hx with ⟨_, rfl⟩ | ⟨⟨hc, _⟩, _⟩ | ⟨⟨hc, _⟩, _⟩
    · constructor <;>
        simp [noBriefError, stringExamplesError, stringArrayExamplesError]
    · exact absurd hc hex
    · exact absurd hc hex

/-- Witness for C7 at `gAttrNoExamples`. -/
theorem examples_error_characterization_witness :
    stringExamplesError "p" "grp" "a" ∈ gAttrNoExamples.validationErrors "p" :=
  ((examples_error_characterization gAttrNoExamples "p" "a"
    (AttributeType.PrimitiveOrArray PrimitiveOrArrayTypeSpec.String)
    (some "b") none none none none RequirementLevel.Recommended none ""
    (by decide)).1 rfl).1 rfl

/-- C8: reference-variant attributes contribute no errors at all,
whatever the other fields of the record; a record all of whose attributes are
references and whose violations would therefore all have to come from its
attributes validates to Ok(()). -/
theorem ref_attributes_no_errors (g : GroupSpec) (p : String) :
    (∀ r : String,
      attributeValidationErrors g.id p (AttributeSpec.Ref r) = []) ∧
    ((∀ a ∈ g.attributes, a.isRef = true) →
      g.ruleViolations = g.attributes.flatMap attributeRuleViolations →
      g.validate p = Except.ok ()) := by
  refine ⟨fun r => attributeValidationErrors_Ref g.id p r, ?_⟩
  intro h4 hgroup
  rw [GroupSpec.validate, handle_errors_ok_iff, validationErrors_eq_map, hgroup]
  have hnil : g.attributes.flatMap attributeRuleViolations = [] := by
    rw [List.flatMap_eq_nil_iff]
    intro a ha
    cases a with
    | Ref r => rfl
    | Id i ty brief ex st depr tag rl sr note =>
      exact absurd (h4 _ ha) (by simp [AttributeSpec.isRef])
  rw [hnil]
  rfl

/-- Witness for C8 at `gRefOnly`. -/
theorem ref_attributes_no_errors_witness :
    GroupSpec.validate gRefOnly "p" = Except.ok () :=
  (ref_attributes_no_errors gRefOnly "p").2 (by decide) rfl
